import Mathlib

/-!
Shallow embedding of the task orchestration and bounded-concurrency core of
the `scraper` repository (src/scheduler.py, src/async_scraper.py,
src/database.py, src/utils.py), together with theorems settling the frozen
claims about it.

Modelling conventions:
* ISO-8601 timestamp strings are modelled by their value in seconds
  (`Nat`); `datetime.now()` becomes an explicit `now : Nat` parameter and
  `(a - b).days` becomes `(a - b) / 86400` (Python timedelta day truncation).
* Python floats that are only stored, never computed with, are modelled as
  `Rat`.
* A Python dict keyed by strings is modelled as an association list.
* Network and handler effects are passed in as explicit outcome functions,
  and persistence I/O as an explicit `Except String Unit` value, so the
  control flow of the source can be reproduced exactly and executed.
-/

namespace SeoScraper

/-- Data model of `models.py` `ContentData` (floats as `Rat`, ISO timestamps
as epoch seconds). -/
structure ContentData where
  title : String
  url : String
  meta_description : String
  h1_tags : List String
  h2_tags : List String
  h3_tags : List String
  word_count : Nat
  keyword_density : List (String × Rat)
  reading_score : Rat
  internal_links : List String
  external_links : List String
  images : List (List (String × String))
  schema_markup : List String
  page_speed_score : Rat
  mobile_friendly : Bool
  timestamp : Nat
deriving DecidableEq

/-- Data model of `models.py` `KeywordData`. -/
structure KeywordData where
  keyword : String
  search_volume : String
  competition : String
  difficulty_score : Nat
  related_keywords : List String
  people_also_ask : List String
  featured_snippet : String
  local_pack : List String
  timestamp : Nat
deriving DecidableEq

/-- Outcome of one item inside a bulk `asyncio.gather(..., return_exceptions=True)`
call: the per-item coroutine either produced a record, returned `None`
(it swallows its own errors and returns `None`), or let an exception escape
(captured by `gather` as a value). -/
inductive ItemResult (α : Type) where
  | success (r : α)
  | nothing
  | exc (e : String)
deriving DecidableEq

/-- True exactly on `success`; mirrors the `isinstance(r, ContentData)`
(resp. `KeywordData`) filter of `async_scraper.py`. -/
def ItemResult.isSuccess : ItemResult α → Bool
  | .success _ => true
  | _ => false

/-- The filtering comprehension `[r for r in results if isinstance(r, C)]`
shared by both bulk analyzers (async_scraper.py lines 168 and 299). -/
def validResults (results : List (ItemResult α)) : List α :=
  results.filterMap fun r => match r with | .success c => some c | _ => none

/-- `AsyncContentAnalyzer.analyze_multiple_urls`: gather one
`_analyze_single_url` coroutine per url (modelled by the outcome function
`run`), then keep the `ContentData` results. -/
def analyze_multiple_urls (run : String → ItemResult ContentData)
    (urls : List String) : List ContentData :=
  let results := urls.map run
  validResults results

/-- `AsyncKeywordAnalyzer.analyze_multiple_keywords`: gather one
semaphore-wrapped `_analyze_single_keyword` coroutine per keyword, then keep
the `KeywordData` results. -/
def analyze_multiple_keywords (run : String → ItemResult KeywordData)
    (keywords : List String) : List KeywordData :=
  let results := keywords.map run
  validResults results

/-! ## utils.py : retry_on_failure -/

/-- The retry loop body of `utils.py retry_on_failure`:
`for attempt in range(max_retries + 1)` calling `func` each iteration.
`f i` is the outcome of the i-th invocation of the wrapped function
(`Except.error` modelling an exception belonging to the configured
`exceptions` tuple). Inside the loop `attempt ≤ max_retries` always holds,
so the source test `attempt == max_retries` (raise the last exception) is
rendered as the bound check below. Returns the final outcome together with
the number of invocations performed. -/
def retryGo (f : Nat → Except String α) (max_retries : Nat) (attempt : Nat) :
    Except String α × Nat :=
  match f attempt with
  | .ok a => (.ok a, attempt + 1)
  | .error e =>
    if _h : attempt < max_retries then retryGo f max_retries (attempt + 1)
    else (.error e, attempt + 1)
termination_by max_retries - attempt

/-- `retry_on_failure(max_retries, delay, backoff)(f)` applied once: run the
retry loop from attempt 0 (delay/backoff only pace the retries and do not
affect the returned value, so they are not part of the value model). -/
def retry_on_failure (max_retries : Nat) (f : Nat → Except String α) :
    Except String α × Nat :=
  retryGo f max_retries 0

/-! ## scheduler.py : data model -/

/-- `scheduler.py TaskStatus`. -/
inductive TaskStatus where
  | pending
  | running
  | completed
  | failed
  | cancelled
deriving DecidableEq

/-- `scheduler.py TaskPriority`. -/
inductive TaskPriority where
  | low
  | medium
  | high
  | critical
deriving DecidableEq

/-- A handler result `Dict[str, Any]` whose values in this codebase are
integers (for example `{"urls_analyzed": n, "total_urls": m}`). -/
abbrev TaskResult := List (String × Nat)

/-- `scheduler.py ScheduledTask` dataclass. `schedule_value` holds a
time-of-day in seconds for once/daily schedules and a period in seconds for
interval schedules (the source keeps both in one dynamically typed field). -/
structure ScheduledTask where
  id : String
  name : String
  function : String
  args : List String
  kwargs : List (String × String)
  schedule_type : String
  schedule_value : Nat
  priority : TaskPriority
  status : TaskStatus
  created_at : Nat
  last_run : Option Nat := none
  next_run : Option Nat := none
  run_count : Nat := 0
  max_runs : Option Nat := none
  retry_count : Nat := 0
  max_retries : Nat := 3
  timeout : Nat := 3600
  result : Option TaskResult := none
  error : Option String := none
deriving DecidableEq

/-- The in-memory registry `self.tasks : Dict[str, ScheduledTask]`,
as an association list keyed by task id. -/
abbrev TaskMap := List (String × ScheduledTask)

/-- Dictionary lookup `self.tasks.get(task_id)`. -/
def findTask : TaskMap → String → Option ScheduledTask
  | [], _ => none
  | p :: rest, i => if p.1 = i then some p.2 else findTask rest i

/-- Dictionary assignment `self.tasks[task_id] = task`. -/
def upsertTask (tasks : TaskMap) (i : String) (t : ScheduledTask) : TaskMap :=
  if tasks.any (fun p => p.1 = i) then
    tasks.map (fun p => if p.1 = i then (i, t) else p)
  else
    tasks ++ [(i, t)]

/-! ## scheduler.py : trigger engine (the `schedule` library jobs) -/

/-- One job of the `schedule` library: created with a tag equal to the task
id, a repeat period, an optional fixed time-of-day, and a next due time. -/
structure Job where
  tag : String
  period : Nat
  at_time : Option Nat
  next_run : Nat
deriving DecidableEq

/-- Next occurrence of time-of-day `a` strictly after the current day
position: today at `a` if still ahead, otherwise tomorrow at `a`
(the `schedule` library computation for `every().day.at(..)`). -/
def dailyNextRun (now a : Nat) : Nat :=
  if now % 86400 < a then now - now % 86400 + a
  else now - now % 86400 + 86400 + a

/-- `TaskScheduler._schedule_task` branch dispatch: the job registered for a
task. A `once` task is registered with `schedule.every().day.at(..)`, the
same daily job as a `daily` task; `weekly` uses `every().week`; `interval`
uses `every(value).seconds`; any other type registers nothing. -/
def schedule_job (now : Nat) (t : ScheduledTask) : Option Job :=
  if t.schedule_type = "once" then
    some { tag := t.id, period := 86400, at_time := some t.schedule_value,
           next_run := dailyNextRun now t.schedule_value }
  else if t.schedule_type = "daily" then
    some { tag := t.id, period := 86400, at_time := some t.schedule_value,
           next_run := dailyNextRun now t.schedule_value }
  else if t.schedule_type = "weekly" then
    some { tag := t.id, period := 7 * 86400, at_time := none,
           next_run := now + 7 * 86400 }
  else if t.schedule_type = "interval" then
    some { tag := t.id, period := t.schedule_value, at_time := none,
           next_run := now + t.schedule_value }
  else none

/-- `TaskScheduler._schedule_task`: register the job and copy its next due
time into `task.next_run` (when a job was registered). -/
def schedule_task (now : Nat) (t : ScheduledTask) : ScheduledTask × Option Job :=
  match schedule_job now t with
  | some j => ({ t with next_run := some j.next_run }, some j)
  | none => (t, none)

/-- A job is due when the tick time has reached its `next_run`
(`schedule.run_pending`). -/
def Job.isDue (j : Job) (now : Nat) : Bool :=
  decide (j.next_run ≤ now)

/-- The `schedule` library re-arms a job after it runs: a fixed
time-of-day job moves to the next occurrence of that time, a plain periodic
job to `now + period`. The job stays registered — nothing in
`scheduler.py` ever cancels it apart from `remove_task`. -/
def jobAfterRun (j : Job) (now : Nat) : Job :=
  match j.at_time with
  | some a => { j with next_run := dailyNextRun now a }
  | none => { j with next_run := now + j.period }

/-! ## scheduler.py : persistence -/

/-- What `TaskScheduler._save_tasks` does with the result of the pickle
write: a successful write, or an exception caught by its `except` clause and
only logged. The function itself always returns normally. -/
inductive SaveOutcome where
  | saved
  | errorLogged (msg : String)
deriving DecidableEq

/-- `TaskScheduler._save_tasks`: attempt the pickle write (`io` is its
outcome) inside `try/except`; any exception is caught and logged, never
re-raised. -/
def save_tasks (io : Except String Unit) : SaveOutcome :=
  match io with
  | .ok _ => .saved
  | .error e => .errorLogged e

/-- `TaskScheduler.add_task`: store the task in the registry, `_save_tasks`,
`_schedule_task` (which updates `next_run` on the stored object and saves
again), and return the task id. The returned registry holds the scheduled
version of the task because Python mutates the stored object in place. -/
def add_task (io : Except String Unit) (now : Nat) (tasks : TaskMap)
    (jobs : List Job) (t : ScheduledTask) :
    TaskMap × List Job × SaveOutcome × String :=
  let save1 := save_tasks io
  let scheduled := schedule_task now t
  (upsertTask tasks t.id scheduled.1,
   (match scheduled.2 with | some j => jobs ++ [j] | none => jobs),
   save1,
   t.id)

/-- `TaskScheduler._load_tasks`: rebuild the registry from the persisted
dictionary; each task is restored as persisted, and only tasks whose status
is `pending` are passed to `_schedule_task` (re-armed). Returns the rebuilt
registry together with the jobs registered during the reload. -/
def load_tasks (now : Nat) : TaskMap → TaskMap × List Job
  | [] => ([], [])
  | (i, t) :: rest =>
    let entry := if t.status = .pending then schedule_task now t else (t, none)
    let loaded := load_tasks now rest
    ((i, entry.1) :: loaded.1,
     (match entry.2 with | some j => j :: loaded.2 | none => loaded.2))

/-! ## scheduler.py : execution state machine -/

/-- Outcome of awaiting `task_func(*task.args, **task.kwargs)` under
`asyncio.wait_for`: a returned result, an `asyncio.TimeoutError`, or any
other exception (with its message). -/
inductive RunOutcome where
  | ok (result : TaskResult)
  | timeout
  | exc (msg : String)
deriving DecidableEq

/-- First half of `TaskScheduler._execute_task`: mark running and stamp
`last_run` (then `_save_tasks`). -/
def beginExecute (now : Nat) (t : ScheduledTask) : ScheduledTask :=
  { t with status := .running, last_run := some now }

/-- Second half of `TaskScheduler._execute_task`: apply the try/except
branches to the running task.
* result returned: store it, `completed`, `run_count += 1`, `retry_count := 0`;
* `asyncio.TimeoutError`: record the timeout message, `failed`;
* other exception: record the message, `retry_count += 1`, then `pending`
  while `retry_count <= max_retries`, otherwise `failed`. -/
def finishExecute (o : RunOutcome) (t : ScheduledTask) : ScheduledTask :=
  match o with
  | .ok r =>
    { t with result := some r, status := .completed,
             run_count := t.run_count + 1, retry_count := 0 }
  | .timeout =>
    { t with error := some ("Task timed out after " ++ toString t.timeout ++ " seconds"),
             status := .failed }
  | .exc e =>
    let t2 := { t with error := some e, retry_count := t.retry_count + 1 }
    if t2.retry_count ≤ t2.max_retries then { t2 with status := .pending }
    else { t2 with status := .failed }

/-- `TaskScheduler._execute_task` on one task, given the handler outcome. -/
def executeTask (now : Nat) (o : RunOutcome) (t : ScheduledTask) : ScheduledTask :=
  finishExecute o (beginExecute now t)

/-- The guard of `_execute_task_wrapper`:
`if task.max_runs and task.run_count >= task.max_runs` (Python truthiness:
`None` and `0` are both falsy). -/
def maxRunsReached (t : ScheduledTask) : Bool :=
  match t.max_runs with
  | none => false
  | some m => if m = 0 then false else decide (m ≤ t.run_count)

/-- What `_execute_task_wrapper` did on a trigger firing. -/
inductive WrapperAction where
  | missing
  | retired
  | executed
deriving DecidableEq

/-- `TaskScheduler._execute_task_wrapper`: unknown ids are ignored; a task
whose `max_runs` cap is reached is marked `completed` without running the
handler; every other task — whatever its current status — is executed via
`_execute_task`. -/
def execute_task_wrapper (now : Nat) (o : RunOutcome) (tasks : TaskMap)
    (task_id : String) : TaskMap × WrapperAction :=
  match findTask tasks task_id with
  | none => (tasks, .missing)
  | some t =>
    if maxRunsReached t then
      (upsertTask tasks task_id { t with status := .completed }, .retired)
    else
      (upsertTask tasks task_id (executeTask now o t), .executed)

/-- `n` consecutive executions of a task whose handler raises the
recoverable error `e` on every run. -/
def runFailingTimes (e : String) (now : Nat) : Nat → ScheduledTask → ScheduledTask
  | 0, t => t
  | n + 1, t => runFailingTimes e now n (executeTask now (.exc e) t)

/-- `TaskScheduler._bulk_url_analysis_task`: run the bulk analyzer over the
urls and return the count dictionary. It returns normally whatever the
per-item outcomes were. -/
def bulk_url_analysis_task (run : String → ItemResult ContentData)
    (urls : List String) : TaskResult :=
  let results := analyze_multiple_urls run urls
  [("urls_analyzed", results.length), ("total_urls", urls.length)]

/-! ## database.py : TTL cache -/

/-- The `content` table: rows with a unique `url` column. -/
abbrev ContentStore := List ContentData

/-- The `keywords` table: rows with a unique `keyword` column. -/
abbrev KeywordStore := List KeywordData

/-- `SELECT * FROM content WHERE url = ?` (unique key). -/
def getContentRow (store : ContentStore) (url : String) : Option ContentData :=
  store.find? (fun r => r.url == url)

/-- `DatabaseManager.save_content_data`: `INSERT OR REPLACE` keyed by the
unique `url` column. -/
def save_content_data (store : ContentStore) (c : ContentData) : ContentStore :=
  c :: store.filter (fun r => ! (r.url == c.url))

/-- `DatabaseManager.get_cached_content_data(url, max_age_days=1)`: return
the row if present and `(now - timestamp).days < max_age_days`, else `None`. -/
def get_cached_content_data (now : Nat) (store : ContentStore) (url : String)
    (max_age_days : Nat) : Option ContentData :=
  match getContentRow store url with
  | some cached =>
    if (now - cached.timestamp) / 86400 < max_age_days then some cached else none
  | none => none

/-- `SELECT * FROM keywords WHERE keyword = ?` (unique key). -/
def getKeywordRow (store : KeywordStore) (k : String) : Option KeywordData :=
  store.find? (fun r => r.keyword == k)

/-- `DatabaseManager.save_keyword_data`: `INSERT OR REPLACE` keyed by the
unique `keyword` column. -/
def save_keyword_data (store : KeywordStore) (d : KeywordData) : KeywordStore :=
  d :: store.filter (fun r => ! (r.keyword == d.keyword))

/-- `DatabaseManager.get_cached_keyword_data(keyword, max_age_days=7)`. -/
def get_cached_keyword_data (now : Nat) (store : KeywordStore) (k : String)
    (max_age_days : Nat) : Option KeywordData :=
  match getKeywordRow store k with
  | some cached =>
    if (now - cached.timestamp) / 86400 < max_age_days then some cached else none
  | none => none

/-- Cache-aware dispatch of `AsyncContentAnalyzer._analyze_single_url`:
consult the cache first (content TTL: the source default of 1 day); on a hit
return the cached record without touching the network; on a miss run the
fetch-and-process pipeline `fetchProc` (`none` models a failed fetch, a
failed parse or a caught exception), write a produced record back, and
return it. The boolean reports whether the network handler was invoked. -/
def analyze_single_url (now : Nat) (store : ContentStore)
    (fetchProc : String → Option ContentData) (url : String) :
    Option ContentData × ContentStore × Bool :=
  match get_cached_content_data now store url 1 with
  | some cached => (some cached, store, false)
  | none =>
    match fetchProc url with
    | some cd => (some cd, save_content_data store cd, true)
    | none => (none, store, true)

/-- Cache-aware dispatch of `AsyncKeywordAnalyzer._analyze_single_keyword`
(keyword TTL: the source default of 7 days), same shape as the url path. -/
def analyze_single_keyword (now : Nat) (store : KeywordStore)
    (fetchProc : String → Option KeywordData) (k : String) :
    Option KeywordData × KeywordStore × Bool :=
  match get_cached_keyword_data now store k 7 with
  | some cached => (some cached, store, false)
  | none =>
    match fetchProc k with
    | some kd => (some kd, save_keyword_data store kd, true)
    | none => (none, store, true)

/-! ## async_scraper.py : bounded concurrency (asyncio.Semaphore)

Both bulk executors guard each in-flight item with an
`asyncio.Semaphore(cap)` acquired by `async with` —
`AsyncHTTPClient.get` (HTTP cap, constructor default 10) and
`_analyze_single_keyword_with_semaphore` (browser cap 3). The cooperative
interleaving of the item coroutines is modelled as a small-step transition
system over the phases of the items: a step either lets an idle item acquire
a permit — only possible while fewer than `cap` permits are held — or lets
a holding item finish (successfully or not), which releases its permit
because `async with` releases on every exit path. -/

/-- Phase of one batch item with respect to the semaphore. -/
inductive ItemPhase where
  | idle
  | holding
  | done (ok : Bool)
deriving DecidableEq

/-- Number of items currently holding an unreleased permit. -/
def holdingCount (ps : List ItemPhase) : Nat :=
  ps.countP (fun p => p == .holding)

/-- Default HTTP concurrency cap: `AsyncHTTPClient.__init__ max_concurrent`. -/
def httpDefaultMaxConcurrent : Nat := 10

/-- Browser-operation cap hard-coded in `analyze_multiple_keywords`. -/
def browserSemaphoreCap : Nat := 3

/-- One scheduler step of the semaphore-guarded batch. -/
inductive SemStep (cap : Nat) : List ItemPhase → List ItemPhase → Prop
  | acquire (ps : List ItemPhase) (i : Nat) (hp : ps.get? i = some .idle)
      (hc : holdingCount ps < cap) : SemStep cap ps (ps.set i .holding)
  | release (ps : List ItemPhase) (i : Nat) (ok : Bool)
      (hp : ps.get? i = some .holding) : SemStep cap ps (ps.set i (.done ok))

/-- States reachable by a batch of `n` items from the all-idle start. -/
def SemReachable (cap n : Nat) (s : List ItemPhase) : Prop :=
  Relation.ReflTransGen (SemStep cap) (List.replicate n .idle) s

/-- The `finally: self._save_tasks()` at the end of
`TaskScheduler._execute_task`: the task state produced by the execution is
paired with the outcome of the save; `_save_tasks` catches its own
exceptions, so the save outcome can never influence the task state. -/
def execute_task_with_save (io : Except String Unit) (now : Nat)
    (o : RunOutcome) (t : ScheduledTask) : ScheduledTask × SaveOutcome :=
  (executeTask now o t, save_tasks io)

/-! ## Concrete sample data used to instantiate the theorems -/

/-- A freshly submitted recurring task (retry budget untouched). -/
def sampleFreshTask : ScheduledTask :=
  { id := "daily_keywords_1", name := "Daily Keyword Analysis",
    function := "analyze_keywords", args := ["python programming"],
    kwargs := [], schedule_type := "daily", schedule_value := 32400,
    priority := .medium, status := .pending, created_at := 0 }

/-- A task persisted while it was running (simulating a crash mid-run). -/
def sampleRunningTask : ScheduledTask :=
  { id := "weekly_competitor_1", name := "Weekly Competitor Analysis",
    function := "competitor_analysis", args := ["example.com"],
    kwargs := [], schedule_type := "weekly", schedule_value := 0,
    priority := .low, status := .running, created_at := 10,
    last_run := some 50 }

/-- A periodic task with an armed `next_run` and no `max_runs` cap, about to
fail. -/
def sampleArmedTask : ScheduledTask :=
  { id := "cleanup_1", name := "Data Cleanup", function := "cleanup_old_data",
    args := ["30"], kwargs := [], schedule_type := "interval",
    schedule_value := 100, priority := .low, status := .pending,
    created_at := 0, next_run := some 500, retry_count := 3, max_retries := 3 }

/-- A one-shot bulk-analysis submission
(`TaskManager.schedule_bulk_url_analysis` with `delay_hours = 0`). -/
def sampleOnceTask : ScheduledTask :=
  { id := "bulk_urls_1", name := "Bulk URL Analysis",
    function := "bulk_url_analysis", args := ["https://example.com"],
    kwargs := [], schedule_type := "once", schedule_value := 3600,
    priority := .high, status := .pending, created_at := 0,
    max_runs := none }

/-- A cached content record for the cache round-trip instances. -/
def sampleContent : ContentData :=
  { title := "Example", url := "https://example.com",
    meta_description := "d", h1_tags := ["h"], h2_tags := [], h3_tags := [],
    word_count := 10, keyword_density := [("seo", 2)], reading_score := 0,
    internal_links := [], external_links := [], images := [],
    schema_markup := [], page_speed_score := 80, mobile_friendly := true,
    timestamp := 1000 }

/-- A cached keyword record for the cache round-trip instances. -/
def sampleKeyword : KeywordData :=
  { keyword := "web scraping", search_volume := "1000", competition := "Low",
    difficulty_score := 50, related_keywords := [], people_also_ask := [],
    featured_snippet := "", local_pack := [], timestamp := 1000 }

/-- A retired one-shot task: its `max_runs` cap is already reached. -/
def sampleRetiredTask : ScheduledTask :=
  { sampleOnceTask with max_runs := some 1, run_count := 1,
                        status := .completed }

/-- Invocation outcomes of a wrapped function that fails once and then
succeeds. -/
def sampleRetryOutcomes : Nat → Except String Nat
  | 0 => .error "boom0"
  | 1 => .ok 7
  | _ => .ok 9

/-! ## Supporting lemmas -/

theorem getContentRow_save (store : ContentStore) (r : ContentData) :
    getContentRow (save_content_data store r) r.url = some r := by
  unfold getContentRow save_content_data
  rw [List.find?_cons_of_pos]
  simp

theorem getKeywordRow_save (store : KeywordStore) (d : KeywordData) :
    getKeywordRow (save_keyword_data store d) d.keyword = some d := by
  unfold getKeywordRow save_keyword_data
  rw [List.find?_cons_of_pos]
  simp

theorem holdingCount_of_no_holding (s : List ItemPhase)
    (h : ∀ p ∈ s, p = .idle ∨ ∃ b, p = .done b) : holdingCount s = 0 := by
  induction s with
  | nil => rfl
  | cons a rest ih =>
    have ha : (a == ItemPhase.holding) = false := by
      rcases h a (by simp) with ha | ⟨b, ha⟩ <;> subst ha <;> rfl
    have hr := ih fun p hp => h p (by simp [hp])
    simp only [holdingCount, List.countP_cons, ha, if_false] at hr ⊢
    simpa using hr

theorem validResults_length_add (results : List (ItemResult α)) :
    (validResults results).length
      + results.countP (fun r => ! r.isSuccess) = results.length := by
  induction results with
  | nil => rfl
  | cons r rest ih =>
    cases r <;> simp [validResults, List.countP_cons, ItemResult.isSuccess] at ih ⊢ <;> omega

theorem validResults_length (results : List (ItemResult α)) :
    (validResults results).length
      = results.length - results.countP (fun r => ! r.isSuccess) := by
  have h := validResults_length_add results
  omega

theorem validResults_eq_nil (results : List (ItemResult α))
    (h : ∀ r ∈ results, r.isSuccess = false) : validResults results = [] := by
  induction results with
  | nil => rfl
  | cons r rest ih =>
    have hr := h r (by simp)
    cases r with
    | success c => simp [ItemResult.isSuccess] at hr
    | nothing => exact ih fun r hm => h r (by simp [hm])
    | exc e => exact ih fun r hm => h r (by simp [hm])

theorem retryGo_invocations_le (f : Nat → Except String α) (m attempt : Nat)
    (h : attempt ≤ m) : (retryGo f m attempt).2 ≤ m + 1 := by
  unfold retryGo
  cases f attempt with
  | ok a => simpa using by omega
  | error e =>
    by_cases hlt : attempt < m
    · simpa [hlt] using retryGo_invocations_le f m (attempt + 1) hlt
    · simp [hlt]; omega
termination_by m - attempt

theorem retryGo_first_success (f : Nat → Except String α) (m attempt j : Nat)
    (hattempt : attempt ≤ j) (hj : j ≤ m) (a : α) (hok : f j = .ok a)
    (herr : ∀ i, attempt ≤ i → i < j → ∃ e, f i = .error e) :
    retryGo f m attempt = (.ok a, j + 1) := by
  unfold retryGo
  rcases Nat.lt_or_ge attempt j with hlt | hge
  · obtain ⟨e, he⟩ := herr attempt le_rfl hlt
    have hm : attempt < m := lt_of_lt_of_le hlt hj
    rw [he]
    simp only [hm, dite_true]
    exact retryGo_first_success f m (attempt + 1) j hlt hj a hok
      (fun i h1 h2 => herr i (Nat.le_of_succ_le h1) h2)
  · have : attempt = j := le_antisymm hattempt hge
    subst this
    rw [hok]
termination_by m - attempt

theorem retryGo_all_fail (f : Nat → Except String α) (m attempt : Nat)
    (hattempt : attempt ≤ m) (em : String) (hm : f m = .error em)
    (herr : ∀ i, attempt ≤ i → i < m → ∃ e, f i = .error e) :
    retryGo f m attempt = (.error em, m + 1) := by
  unfold retryGo
  rcases Nat.lt_or_ge attempt m with hlt | hge
  · obtain ⟨e, he⟩ := herr attempt le_rfl hlt
    rw [he]
    simp only [hlt, dite_true]
    exact retryGo_all_fail f m (attempt + 1) hlt em hm
      (fun i h1 h2 => herr i (Nat.le_of_succ_le h1) h2)
  · have : attempt = m := le_antisymm hattempt hge
    subst this
    rw [hm]
    simp [lt_irrefl]
termination_by m - attempt

theorem executeTask_ok_eq (now : Nat) (r : TaskResult) (t : ScheduledTask) :
    executeTask now (.ok r) t =
      { t with last_run := some now, result := some r,
               status := .completed, run_count := t.run_count + 1,
               retry_count := 0 } := rfl

theorem executeTask_timeout_eq (now : Nat) (t : ScheduledTask) :
    executeTask now .timeout t =
      { t with last_run := some now, status := .failed,
               error := some ("Task timed out after " ++ toString t.timeout
                 ++ " seconds") } := rfl

theorem executeTask_exc_eq (now : Nat) (e : String) (t : ScheduledTask) :
    executeTask now (.exc e) t =
      { t with last_run := some now, error := some e,
               retry_count := t.retry_count + 1,
               status := if t.retry_count + 1 ≤ t.max_retries
                 then TaskStatus.pending else TaskStatus.failed } := by
  unfold executeTask beginExecute finishExecute
  dsimp only
  split <;> simp_all

theorem executeTask_next_run (now : Nat) (o : RunOutcome) (t : ScheduledTask) :
    (executeTask now o t).next_run = t.next_run := by
  cases o with
  | ok r => rw [executeTask_ok_eq]
  | timeout => rw [executeTask_timeout_eq]
  | exc e => rw [executeTask_exc_eq]

theorem runFailingTimes_succ_eq (e : String) (now n : Nat) (t : ScheduledTask) :
    runFailingTimes e now (n + 1) t =
      { t with last_run := some now, error := some e,
               retry_count := t.retry_count + (n + 1),
               status := if t.retry_count + (n + 1) ≤ t.max_retries
                 then TaskStatus.pending else TaskStatus.failed } := by
  induction n generalizing t with
  | zero => simpa using executeTask_exc_eq now e t
  | succ k ih =>
    show runFailingTimes e now (k + 1) (executeTask now (.exc e) t) = _
    rw [ih (executeTask now (.exc e) t), executeTask_exc_eq]
    dsimp only
    have harith : t.retry_count + 1 + (k + 1) = t.retry_count + (k + 1 + 1) := by omega
    rw [harith]

theorem findTask_map_upsert (tasks : TaskMap) (i : String) (t : ScheduledTask)
    (h : tasks.any (fun p => p.1 = i) = true) :
    findTask (tasks.map fun p => if p.1 = i then (i, t) else p) i = some t := by
  induction tasks with
  | nil => simp at h
  | cons p rest ih =>
    by_cases hp : p.1 = i
    · simp [findTask, hp]
    · simp only [List.any_cons, Bool.or_eq_true, decide_eq_true_eq] at h
      rcases h with h | h
      · exact absurd h hp
      · simp only [List.map_cons, if_neg hp, findTask, hp, if_false]
        exact ih h

theorem findTask_append_fresh (l : TaskMap) (i : String) (t : ScheduledTask)
    (h : ∀ p ∈ l, p.1 ≠ i) :
    findTask (l ++ [(i, t)]) i = some t := by
  induction l with
  | nil => simp [findTask]
  | cons p rest ih =>
    have hp := h p (by simp)
    simp only [List.cons_append, findTask, hp, if_false]
    exact ih fun q hq => h q (by simp [hq])

theorem findTask_upsert (tasks : TaskMap) (i : String) (t : ScheduledTask) :
    findTask (upsertTask tasks i t) i = some t := by
  unfold upsertTask
  by_cases h : tasks.any (fun p => p.1 = i) = true
  · rw [if_pos h]
    exact findTask_map_upsert tasks i t h
  · rw [if_neg h]
    refine findTask_append_fresh tasks i t fun p hp hcontra => ?_
    exact h (List.any_eq_true.mpr ⟨p, hp, by simp [hcontra]⟩)

theorem schedule_task_fields (now : Nat) (t : ScheduledTask) :
    (schedule_task now t).1.id = t.id ∧
    (schedule_task now t).1.status = t.status ∧
    (schedule_task now t).1.schedule_type = t.schedule_type ∧
    (schedule_task now t).1.schedule_value = t.schedule_value ∧
    (schedule_task now t).2 = schedule_job now t := by
  unfold schedule_task
  cases h : schedule_job now t <;> simp

theorem load_tasks_eq (now : Nat) (persisted : TaskMap) :
    (load_tasks now persisted).1 =
      persisted.map (fun p =>
        (p.1, if p.2.status = .pending then (schedule_task now p.2).1 else p.2)) ∧
    (load_tasks now persisted).2 =
      persisted.filterMap (fun p =>
        if p.2.status = .pending then (schedule_task now p.2).2 else none) := by
  induction persisted with
  | nil => exact ⟨rfl, rfl⟩
  | cons p rest ih =>
    obtain ⟨i, t⟩ := p
    obtain ⟨ih1, ih2⟩ := ih
    by_cases hp : t.status = .pending
    · cases hj : (schedule_task now t).2 <;>
        simp [load_tasks, hp, hj, ih1, ih2, List.filterMap_cons]
    · simp [load_tasks, hp, ih1, ih2, List.filterMap_cons]

theorem countP_set_get (p : α → Bool) :
    ∀ (l : List α) (i : Nat) (x y : α), l.get? i = some x →
      (l.set i y).countP p + (if p x then 1 else 0)
        = l.countP p + (if p y then 1 else 0) := by
  intro l
  induction l with
  | nil => intro i x y h; simp at h
  | cons a rest ih =>
    intro i x y h
    cases i with
    | zero =>
      simp only [List.get?] at h
      injection h with h
      subst h
      simp only [List.set, List.countP_cons]
      split_ifs <;> omega
    | succ k =>
      simp only [List.get?] at h
      have hk := ih k x y h
      simp only [List.set, List.countP_cons]
      split_ifs at hk ⊢ <;> omega

theorem holdingCount_replicate (n : Nat) :
    holdingCount (List.replicate n ItemPhase.idle) = 0 := by
  induction n with
  | zero => rfl
  | succ k ih =>
    simp only [List.replicate, holdingCount, List.countP_cons] at ih ⊢
    simp [ih]

theorem holdingCount_set_acquire (ps : List ItemPhase) (i : Nat)
    (hp : ps.get? i = some .idle) :
    holdingCount (ps.set i .holding) = holdingCount ps + 1 := by
  have h := countP_set_get (fun p => p == ItemPhase.holding) ps i _ .holding hp
  simp only [holdingCount]
  simp at h
  omega

theorem holdingCount_set_release (ps : List ItemPhase) (i : Nat) (ok : Bool)
    (hp : ps.get? i = some .holding) :
    holdingCount (ps.set i (.done ok)) + 1 = holdingCount ps := by
  have h := countP_set_get (fun p => p == ItemPhase.holding) ps i _ (.done ok) hp
  simp only [holdingCount]
  simp at h
  omega

/-! ## Claims -/

/-- C1: for every batch of N independent items submitted to
`analyze_multiple_urls` or `analyze_multiple_keywords` in which exactly K
items fail, the executor attempts all N items (one per input, regardless of
sibling failures), returns exactly N-K successful records, and the number of
failures it records is exactly K. -/
theorem bulk_partial_failure_contract
    (runU : String → ItemResult ContentData)
    (runK : String → ItemResult KeywordData)
    (urls keywords : List String) :
    ((urls.map runU).length = urls.length ∧
     (analyze_multiple_urls runU urls).length
       = urls.length - (urls.map runU).countP (fun r => ! r.isSuccess) ∧
     urls.length - (analyze_multiple_urls runU urls).length
       = (urls.map runU).countP (fun r => ! r.isSuccess)) ∧
    ((keywords.map runK).length = keywords.length ∧
     (analyze_multiple_keywords runK keywords).length
       = keywords.length - (keywords.map runK).countP (fun r => ! r.isSuccess) ∧
     keywords.length - (analyze_multiple_keywords runK keywords).length
       = (keywords.map runK).countP (fun r => ! r.isSuccess)) := by
  have hu := validResults_length_add (urls.map runU)
  have hk := validResults_length_add (keywords.map runK)
  have hlu : (urls.map runU).length = urls.length := by simp
  have hlk : (keywords.map runK).length = keywords.length := by simp
  simp only [analyze_multiple_urls, analyze_multiple_keywords]
  refine ⟨⟨hlu, ?_, ?_⟩, hlk, ?_, ?_⟩ <;> omega

/-- C10: the `retry_on_failure` wrapper invokes the wrapped function at most
`max_retries + 1` times; it returns the value of the first invocation that
does not raise, performing no further invocations; and when every invocation
raises an exception from the configured tuple, it re-raises the exception of
the last invocation. -/
theorem retry_on_failure_contract (f : Nat → Except String α) (m : Nat) :
    (retry_on_failure m f).2 ≤ m + 1 ∧
    (∀ j a, j ≤ m → f j = .ok a → (∀ i, i < j → ∃ e, f i = .error e) →
       retry_on_failure m f = (.ok a, j + 1)) ∧
    (∀ em, f m = .error em → (∀ i, i < m → ∃ e, f i = .error e) →
       retry_on_failure m f = (.error em, m + 1)) := by
  refine ⟨retryGo_invocations_le f m 0 (Nat.zero_le m), ?_, ?_⟩
  · intro j a hj hok herr
    exact retryGo_first_success f m 0 j (Nat.zero_le j) hj a hok
      (fun i _ h2 => herr i h2)
  · intro em hm herr
    exact retryGo_all_fail f m 0 (Nat.zero_le m) em hm (fun i _ h2 => herr i h2)

/-- C10 witness: with `max_retries = 3` and a function failing once then
succeeding, the wrapper returns the first success after exactly two
invocations and stays within the invocation budget. -/
theorem retry_on_failure_contract_witness :
    retry_on_failure 3 sampleRetryOutcomes = (.ok 7, 2) ∧
    (retry_on_failure 3 sampleRetryOutcomes).2 ≤ 4 :=
  ⟨(retry_on_failure_contract sampleRetryOutcomes 3).2.1 1 7 (by decide) rfl
      (fun i hi => by
        cases i with
        | zero => exact ⟨"boom0", rfl⟩
        | succ k => omega),
   (retry_on_failure_contract sampleRetryOutcomes 3).1⟩

/-- C2: a task whose handler raises a recoverable error on every execution
transitions Pending→Running→Pending exactly `max_retries` times — after each
of the first `max_retries` runs it is Pending again with `retry_count`
incremented to the run index and the error recorded, and each run passes
through the Running phase — then becomes Failed on the
`(max_retries + 1)`-th run; and whenever its status is Pending,
`retry_count` never exceeds `max_retries`. -/
theorem always_failing_task_lifecycle (e : String) (now : Nat)
    (t : ScheduledTask) (hs : t.status = .pending) (hr : t.retry_count = 0) :
    (∀ i, i ≤ t.max_retries →
       (runFailingTimes e now i t).status = .pending ∧
       (runFailingTimes e now i t).retry_count = i ∧
       (beginExecute now (runFailingTimes e now i t)).status = .running) ∧
    (∀ i, 1 ≤ i → i ≤ t.max_retries →
       (runFailingTimes e now i t).error = some e) ∧
    (runFailingTimes e now (t.max_retries + 1) t).status = .failed ∧
    (∀ i, (runFailingTimes e now i t).status = .pending →
       (runFailingTimes e now i t).retry_count ≤ t.max_retries) := by
  refine ⟨?_, ?_, ?_, ?_⟩
  · intro i hi
    cases i with
    | zero => exact ⟨hs, hr, rfl⟩
    | succ k =>
      rw [runFailingTimes_succ_eq]
      dsimp only
      rw [hr]
      have hc : 0 + (k + 1) ≤ t.max_retries := by omega
      exact ⟨by rw [if_pos hc], by omega, rfl⟩
  · intro i h1 _h2
    cases i with
    | zero => omega
    | succ k =>
      rw [runFailingTimes_succ_eq]
  · rw [runFailingTimes_succ_eq]
    dsimp only
    rw [hr, if_neg (by omega)]
  · intro i hpend
    cases i with
    | zero =>
      have : (runFailingTimes e now 0 t).retry_count = 0 := hr
      omega
    | succ k =>
      rw [runFailingTimes_succ_eq] at hpend ⊢
      dsimp only at hpend ⊢
      rw [hr] at hpend ⊢
      by_cases hc : 0 + (k + 1) ≤ t.max_retries
      · omega
      · rw [if_neg hc] at hpend
        exact absurd hpend (by decide)

/-- C2 witness: a fresh pending task with the default `max_retries = 3` is
still Pending after three failing runs and Failed after the fourth. -/
theorem always_failing_task_lifecycle_witness :
    (runFailingTimes "boom" 100 3 sampleFreshTask).status = .pending ∧
    (runFailingTimes "boom" 100 4 sampleFreshTask).status = .failed :=
  ⟨((always_failing_task_lifecycle "boom" 100 sampleFreshTask rfl rfl).1 3
      (by decide)).1,
   (always_failing_task_lifecycle "boom" 100 sampleFreshTask rfl rfl).2.2.1⟩

/-- C3 counterexample: reloading a registry whose only persisted task was
left with status Running restores it still as Running — not reset to
Pending — and registers no trigger job for it, so it is not eligible for
re-trigger and nothing counts as a retry. -/
theorem restart_running_not_reset_counterexample :
    (load_tasks 60 [("weekly_competitor_1", sampleRunningTask)]).1
      = [("weekly_competitor_1", sampleRunningTask)] ∧
    sampleRunningTask.status = .running ∧
    sampleRunningTask.retry_count = 0 ∧
    (load_tasks 60 [("weekly_competitor_1", sampleRunningTask)]).2 = [] := by
  decide

/-- C3 amended: after a registry restart, every task persisted as Pending is
restored with the same id, payload and schedule fields and re-armed in the
trigger engine (its job is registered); but a task persisted as Running is
restored unchanged — still Running, never reset to Pending — and no job is
registered for it, so it is not eligible for re-trigger and no retry is
counted. -/
theorem restart_restores_tasks (now : Nat) (persisted : TaskMap) :
    (∀ p ∈ persisted, p.2.status = .pending →
       (p.1, (schedule_task now p.2).1) ∈ (load_tasks now persisted).1 ∧
       (schedule_task now p.2).1.id = p.2.id ∧
       (schedule_task now p.2).1.status = .pending ∧
       (schedule_task now p.2).1.schedule_type = p.2.schedule_type ∧
       (schedule_task now p.2).1.schedule_value = p.2.schedule_value ∧
       (∀ j, schedule_job now p.2 = some j → j ∈ (load_tasks now persisted).2)) ∧
    (∀ p ∈ persisted, p.2.status = .running →
       (p.1, p.2) ∈ (load_tasks now persisted).1) ∧
    ((∀ p ∈ persisted, p.2.status ≠ .pending) →
       (load_tasks now persisted).2 = []) := by
  obtain ⟨h1, h2⟩ := load_tasks_eq now persisted
  refine ⟨?_, ?_, ?_⟩
  · intro p hp hpend
    have hf := schedule_task_fields now p.2
    refine ⟨?_, hf.1, ?_, hf.2.2.1, hf.2.2.2.1, ?_⟩
    · rw [h1]
      have hm : (p.1, if p.2.status = .pending
            then (schedule_task now p.2).1 else p.2)
          ∈ persisted.map (fun q =>
              (q.1, if q.2.status = .pending
                then (schedule_task now q.2).1 else q.2)) :=
        List.mem_map.mpr ⟨p, hp, rfl⟩
      simpa [hpend] using hm
    · rw [hf.2.1, hpend]
    · intro j hj
      rw [h2]
      refine List.mem_filterMap.mpr ⟨p, hp, ?_⟩
      rw [if_pos hpend, hf.2.2.2.2, hj]
  · intro p hp hrun
    rw [h1]
    have hm : (p.1, if p.2.status = .pending
          then (schedule_task now p.2).1 else p.2)
        ∈ persisted.map (fun q =>
            (q.1, if q.2.status = .pending
              then (schedule_task now q.2).1 else q.2)) :=
      List.mem_map.mpr ⟨p, hp, rfl⟩
    have hne : ¬ p.2.status = .pending := by simp [hrun]
    simpa [hne] using hm
  · intro hall
    rw [h2]
    refine List.filterMap_eq_nil_iff.mpr fun p hp => ?_
    rw [if_neg (hall p hp)]

/-- C3 witness: reloading a registry with one Pending and one Running task:
the Pending task is restored (in its rescheduled form) and the Running task
is restored unchanged. -/
theorem restart_restores_tasks_witness :
    ("daily_keywords_1", (schedule_task 0 sampleFreshTask).1)
      ∈ (load_tasks 0 [("daily_keywords_1", sampleFreshTask),
                       ("weekly_competitor_1", sampleRunningTask)]).1 ∧
    ("weekly_competitor_1", sampleRunningTask)
      ∈ (load_tasks 0 [("daily_keywords_1", sampleFreshTask),
                       ("weekly_competitor_1", sampleRunningTask)]).1 :=
  ⟨((restart_restores_tasks 0 _).1 ("daily_keywords_1", sampleFreshTask)
      (by simp) rfl).1,
   (restart_restores_tasks 0 _).2.1 ("weekly_competitor_1", sampleRunningTask)
      (by simp) rfl⟩

/-- C4 counterexample: a task that reaches Failed (here through timeout)
does get `error` set, but `next_run` keeps its previous value instead of
becoming null, and on the next trigger firing the wrapper executes its
handler again — a Failed task is run again by the trigger engine. -/
theorem failed_task_rearming_counterexample :
    (executeTask 600 .timeout sampleArmedTask).status = .failed ∧
    (executeTask 600 .timeout sampleArmedTask).error ≠ none ∧
    (executeTask 600 .timeout sampleArmedTask).next_run = some 500 ∧
    (execute_task_wrapper 700 (.exc "again")
       [("cleanup_1", executeTask 600 .timeout sampleArmedTask)]
       "cleanup_1").2 = .executed := by
  decide

/-- C4 amended: when a task reaches Failed (timeout, or a recoverable error
past the retry budget) `error` is set, but `next_run` is left unchanged —
never set to null — and the trigger job stays registered, so at the next
firing the wrapper runs the handler of the Failed task again (only the
`max_runs` guard can suppress execution); the task stays visible in the
registry. -/
theorem failed_task_semantics (now later : Nat) (t t2 : ScheduledTask)
    (o : RunOutcome) (tasks : TaskMap) (i e : String) :
    ((executeTask now .timeout t).status = .failed ∧
     (executeTask now .timeout t).error ≠ none ∧
     (executeTask now .timeout t).next_run = t.next_run) ∧
    (t.max_retries < t.retry_count + 1 →
       (executeTask now (.exc e) t).status = .failed ∧
       (executeTask now (.exc e) t).error = some e ∧
       (executeTask now (.exc e) t).next_run = t.next_run) ∧
    (findTask tasks i = some t2 → t2.status = .failed →
       maxRunsReached t2 = false →
       (execute_task_wrapper later o tasks i).2 = .executed ∧
       findTask (execute_task_wrapper later o tasks i).1 i
         = some (executeTask later o t2)) := by
  refine ⟨⟨?_, ?_, ?_⟩, ?_, ?_⟩
  · rw [executeTask_timeout_eq]
  · rw [executeTask_timeout_eq]; simp
  · exact executeTask_next_run now .timeout t
  · intro hover
    have h := executeTask_exc_eq now e t
    refine ⟨?_, ?_, ?_⟩
    · rw [h]
      dsimp only
      rw [if_neg (by omega)]
    · rw [h]
    · exact executeTask_next_run now (.exc e) t
  · intro hfind _hfailed hmax
    unfold execute_task_wrapper
    rw [hfind]
    simp only [hmax, Bool.false_eq_true, if_false]
    exact ⟨trivial, findTask_upsert tasks i (executeTask later o t2)⟩

/-- C4 witness: the wrapper part of the amended claim instantiated on a
registry holding one Failed task with no `max_runs` cap. -/
theorem failed_task_semantics_witness :
    (execute_task_wrapper 700 (.ok [])
       [("cleanup_1", executeTask 600 RunOutcome.timeout sampleArmedTask)]
       "cleanup_1").2 = .executed :=
  ((failed_task_semantics 600 700 sampleArmedTask
      (executeTask 600 .timeout sampleArmedTask) (.ok [])
      [("cleanup_1", executeTask 600 .timeout sampleArmedTask)]
      "cleanup_1" "x").2.2 (by decide) (by decide) (by decide)).1

/-- C5 counterexample: submitting a task while the persistence write raises
an I/O error still succeeds — `add_task` registers the task and returns its
id, and the error ends up only as a logged `_save_tasks` outcome, so it is
not surfaced to the caller and the submission does not fail. -/
theorem persistence_error_swallowed_counterexample :
    (add_task (Except.error "disk full") 0 [] [] sampleFreshTask).2.2.2
      = "daily_keywords_1" ∧
    (add_task (Except.error "disk full") 0 [] [] sampleFreshTask).2.2.1
      = .errorLogged "disk full" ∧
    findTask (add_task (Except.error "disk full") 0 [] [] sampleFreshTask).1
      "daily_keywords_1" = some (schedule_task 0 sampleFreshTask).1 := by
  decide

/-- C5 amended: a persistence I/O failure during `add_task` is caught inside
`_save_tasks` and only logged: the submission still registers the task and
returns its id (the error is never surfaced to the caller and the
submission never fails), and a persistence failure never changes the
outcome of an in-progress execution. -/
theorem add_task_swallows_persistence_error (io : Except String Unit)
    (now : Nat) (tasks : TaskMap) (jobs : List Job) (t : ScheduledTask)
    (e : String) (o : RunOutcome) :
    (add_task io now tasks jobs t).2.2.2 = t.id ∧
    findTask (add_task io now tasks jobs t).1 t.id
      = some (schedule_task now t).1 ∧
    (io = .error e →
       (add_task io now tasks jobs t).2.2.1 = .errorLogged e) ∧
    (execute_task_with_save io now o t).1 = executeTask now o t := by
  refine ⟨rfl, ?_, ?_, rfl⟩
  · exact findTask_upsert tasks t.id (schedule_task now t).1
  · intro hio
    subst hio
    rfl

/-- C5 witness: the amended claim instantiated with a failing pickle write
on a concrete submission. -/
theorem add_task_swallows_persistence_error_witness :
    (add_task (Except.error "nope") 5 [] [] sampleOnceTask).2.2.1
      = .errorLogged "nope" :=
  (add_task_swallows_persistence_error (Except.error "nope") 5 [] []
      sampleOnceTask "nope" (.ok [])).2.2.1 rfl

/-- C6 counterexample: a non-empty batch in which every item fails produces
the count dictionary with zero successes, and the bulk task returns it
normally, so the owning task is recorded as Completed with its retry count
reset — not treated as a recoverable failure. -/
theorem zero_success_batch_completed_counterexample :
    bulk_url_analysis_task (fun _ => .nothing) ["https://a.com", "https://b.com"]
      = [("urls_analyzed", 0), ("total_urls", 2)] ∧
    (executeTask 9 (.ok (bulk_url_analysis_task (fun _ => .nothing)
        ["https://a.com", "https://b.com"])) sampleOnceTask).status
      = .completed ∧
    (executeTask 9 (.ok (bulk_url_analysis_task (fun _ => .nothing)
        ["https://a.com", "https://b.com"])) sampleOnceTask).retry_count
      = 0 := by
  decide

/-- C6 amended: a task execution running a batch succeeds whenever the batch
executor returns, regardless of how many items succeeded: the task is
Completed with the count dictionary as result and `retry_count` reset — in
particular a zero-success non-empty batch is still recorded as a Completed
task rather than as a recoverable failure. -/
theorem bulk_batch_always_completes (run : String → ItemResult ContentData)
    (urls : List String) (now : Nat) (t : ScheduledTask) :
    (executeTask now (.ok (bulk_url_analysis_task run urls)) t).status
      = .completed ∧
    (executeTask now (.ok (bulk_url_analysis_task run urls)) t).result
      = some [("urls_analyzed", (analyze_multiple_urls run urls).length),
              ("total_urls", urls.length)] ∧
    (executeTask now (.ok (bulk_url_analysis_task run urls)) t).retry_count
      = 0 ∧
    ((∀ u ∈ urls, (run u).isSuccess = false) →
       (analyze_multiple_urls run urls).length = 0) := by
  refine ⟨rfl, rfl, rfl, ?_⟩
  intro h
  have : validResults (urls.map run) = [] :=
    validResults_eq_nil _ fun r hr => by
      obtain ⟨u, hu, rfl⟩ := List.mem_map.mp hr
      exact h u hu
  simp [analyze_multiple_urls, this]

/-- C6 witness: the amended claim instantiated on a one-element batch whose
only item fails. -/
theorem bulk_batch_always_completes_witness :
    (executeTask 9 (.ok (bulk_url_analysis_task (fun _ => ItemResult.nothing)
        ["https://a.com"])) sampleFreshTask).status = .completed ∧
    (analyze_multiple_urls (fun _ => ItemResult.nothing)
        ["https://a.com"]).length = 0 :=
  ⟨(bulk_batch_always_completes (fun _ => .nothing) ["https://a.com"] 9
      sampleFreshTask).1,
   (bulk_batch_always_completes (fun _ => .nothing) ["https://a.com"] 9
      sampleFreshTask).2.2.2 (fun _ _ => rfl)⟩

/-- C7: after saving a record under key K, a lookup for K while the record
is younger than its type-specific TTL (content: 1 day; keyword: 7 days)
returns the identical record and the dispatch gate does not invoke the
handler; a lookup after the TTL has expired returns no cached record, so the
handler is invoked again and a produced result is written back to the
store. -/
theorem cache_ttl_roundtrip (now : Nat) (store : ContentStore)
    (kstore : KeywordStore) (r : ContentData) (kd : KeywordData)
    (f : String → Option ContentData) (g : String → Option KeywordData) :
    ((now - r.timestamp) / 86400 < 1 →
       get_cached_content_data now (save_content_data store r) r.url 1
         = some r ∧
       analyze_single_url now (save_content_data store r) f r.url
         = (some r, save_content_data store r, false)) ∧
    (1 ≤ (now - r.timestamp) / 86400 →
       get_cached_content_data now (save_content_data store r) r.url 1
         = none ∧
       (∀ c, f r.url = some c →
          analyze_single_url now (save_content_data store r) f r.url
            = (some c, save_content_data (save_content_data store r) c, true))) ∧
    ((now - kd.timestamp) / 86400 < 7 →
       get_cached_keyword_data now (save_keyword_data kstore kd) kd.keyword 7
         = some kd ∧
       analyze_single_keyword now (save_keyword_data kstore kd) g kd.keyword
         = (some kd, save_keyword_data kstore kd, false)) ∧
    (7 ≤ (now - kd.timestamp) / 86400 →
       get_cached_keyword_data now (save_keyword_data kstore kd) kd.keyword 7
         = none ∧
       (∀ d, g kd.keyword = some d →
          analyze_single_keyword now (save_keyword_data kstore kd) g kd.keyword
            = (some d, save_keyword_data (save_keyword_data kstore kd) d, true))) := by
  have hrowC := getContentRow_save store r
  have hrowK := getKeywordRow_save kstore kd
  refine ⟨?_, ?_, ?_, ?_⟩
  · intro hfresh
    have hget : get_cached_content_data now (save_content_data store r) r.url 1
        = some r := by
      unfold get_cached_content_data
      rw [hrowC]
      simp [hfresh]
    refine ⟨hget, ?_⟩
    unfold analyze_single_url
    rw [hget]
  · intro hold
    have hneg : ¬ (now - r.timestamp) / 86400 < 1 := by omega
    have hget : get_cached_content_data now (save_content_data store r) r.url 1
        = none := by
      unfold get_cached_content_data
      rw [hrowC]
      simp [hneg]
    refine ⟨hget, fun c hc => ?_⟩
    unfold analyze_single_url
    rw [hget, hc]
  · intro hfresh
    have hget : get_cached_keyword_data now (save_keyword_data kstore kd)
        kd.keyword 7 = some kd := by
      unfold get_cached_keyword_data
      rw [hrowK]
      simp [hfresh]
    refine ⟨hget, ?_⟩
    unfold analyze_single_keyword
    rw [hget]
  · intro hold
    have hneg : ¬ (now - kd.timestamp) / 86400 < 7 := by omega
    have hget : get_cached_keyword_data now (save_keyword_data kstore kd)
        kd.keyword 7 = none := by
      unfold get_cached_keyword_data
      rw [hrowK]
      simp [hneg]
    refine ⟨hget, fun d hd => ?_⟩
    unfold analyze_single_keyword
    rw [hget, hd]

/-- C7 witness: the concrete record saved at time 1000 is returned by a
lookup at time 1500 (age 0 days) and gone from a lookup at time 200000
(age 2 days). -/
theorem cache_ttl_roundtrip_witness :
    get_cached_content_data 1500 (save_content_data [] sampleContent)
      "https://example.com" 1 = some sampleContent ∧
    get_cached_content_data 200000 (save_content_data [] sampleContent)
      "https://example.com" 1 = none :=
  ⟨((cache_ttl_roundtrip 1500 [] [] sampleContent sampleKeyword
      (fun _ => none) (fun _ => none)).1 (by decide)).1,
   ((cache_ttl_roundtrip 200000 [] [] sampleContent sampleKeyword
      (fun _ => none) (fun _ => none)).2.1 (by decide)).1⟩

/-- C8 counterexample: a task with schedule type `once` is registered as a
daily job: it is due at its time-of-day on the first day, and after running
then the re-armed job is due again one day later; after a successful run
`next_run` is still set (not null) and on the second firing the wrapper
executes the handler again (the task had no `max_runs` cap). -/
theorem once_trigger_counterexample :
    (schedule_job 0 sampleOnceTask).map Job.period = some 86400 ∧
    (schedule_job 0 sampleOnceTask).map (fun j => j.isDue 3600) = some true ∧
    (schedule_job 0 sampleOnceTask).map
      (fun j => (jobAfterRun j 3600).isDue (3600 + 86400)) = some true ∧
    (executeTask 3600 (.ok []) (schedule_task 0 sampleOnceTask).1).next_run
      = some 3600 ∧
    (execute_task_wrapper 90000 (.ok [])
       [("bulk_urls_1",
         executeTask 3600 (.ok []) (schedule_task 0 sampleOnceTask).1)]
       "bulk_urls_1").2 = .executed := by
  decide

/-- C8 amended: a task with trigger `once` at a time-of-day is scheduled as
a daily job at that time, so it becomes due every day, not exactly once;
running it leaves `next_run` unchanged (never null) and the re-armed job
becomes due again at its new `next_run`; repeat executions are suppressed
only by the `max_runs` guard, which retires the task to Completed without
running the handler once `run_count` has reached the cap. -/
theorem once_trigger_is_daily (now m : Nat) (t t2 : ScheduledTask)
    (o : RunOutcome) (tasks : TaskMap) (i : String) (j : Job)
    (h : t.schedule_type = "once") :
    schedule_job now t = some { tag := t.id, period := 86400,
                                at_time := some t.schedule_value,
                                next_run := dailyNextRun now t.schedule_value } ∧
    (schedule_job now t = some j →
       (jobAfterRun j m).isDue (jobAfterRun j m).next_run = true) ∧
    (executeTask m o t).next_run = t.next_run ∧
    (findTask tasks i = some t2 → maxRunsReached t2 = true →
       (execute_task_wrapper m o tasks i).2 = .retired ∧
       findTask (execute_task_wrapper m o tasks i).1 i
         = some { t2 with status := .completed }) := by
  refine ⟨?_, ?_, executeTask_next_run m o t, ?_⟩
  · unfold schedule_job
    rw [if_pos h]
  · intro _hj
    simp [Job.isDue]
  · intro hfind hmax
    unfold execute_task_wrapper
    rw [hfind]
    simp only [hmax, if_true]
    exact ⟨trivial, findTask_upsert tasks i { t2 with status := .completed }⟩

/-- C8 witness: the amended claim instantiated on the concrete one-shot
task, including the retirement of a task whose `max_runs` cap is reached. -/
theorem once_trigger_is_daily_witness :
    schedule_job 7 sampleOnceTask
      = some { tag := sampleOnceTask.id, period := 86400,
               at_time := some sampleOnceTask.schedule_value,
               next_run := dailyNextRun 7 sampleOnceTask.schedule_value } ∧
    (execute_task_wrapper 90000 (.ok [])
       [("bulk_urls_1", sampleRetiredTask)] "bulk_urls_1").2 = .retired :=
  ⟨(once_trigger_is_daily 7 90000 sampleOnceTask sampleRetiredTask (.ok [])
      [("bulk_urls_1", sampleRetiredTask)] "bulk_urls_1"
      { tag := "", period := 0, at_time := none, next_run := 0 } rfl).1,
   ((once_trigger_is_daily 7 90000 sampleOnceTask sampleRetiredTask (.ok [])
      [("bulk_urls_1", sampleRetiredTask)] "bulk_urls_1"
      { tag := "", period := 0, at_time := none, next_run := 0 } rfl).2.2.2
      (by decide) (by decide)).1⟩

/-- C9: in every state reachable by a semaphore-guarded batch dispatch under
cap `cap` (the HTTP client semaphore or the browser-operation semaphore),
at most `cap` items hold an unreleased permit simultaneously; and since both
successful and failed completions release (`async with` releases on every
exit path), a state in which every item is idle or finished holds no
permits. -/
theorem semaphore_concurrency_bound (cap n : Nat) (s : List ItemPhase)
    (h : SemReachable cap n s) :
    holdingCount s ≤ cap ∧
    ((∀ p ∈ s, p = .idle ∨ ∃ b, p = .done b) → holdingCount s = 0) := by
  refine ⟨?_, holdingCount_of_no_holding s⟩
  induction h with
  | refl => rw [holdingCount_replicate]; exact Nat.zero_le cap
  | tail _hsteps hstep ih =>
    cases hstep with
    | acquire i hp hc =>
      rw [holdingCount_set_acquire _ i hp]
      omega
    | release i ok hp =>
      have hrel := holdingCount_set_release _ i ok hp
      omega

/-- C9 witness: a batch of 50 items under cap 5, after one acquisition step,
is a reachable state with at most 5 permits held. -/
theorem semaphore_concurrency_bound_witness :
    holdingCount ((List.replicate 50 ItemPhase.idle).set 0 .holding) ≤ 5 :=
  (semaphore_concurrency_bound 5 50
    ((List.replicate 50 ItemPhase.idle).set 0 .holding)
    (Relation.ReflTransGen.single
      (SemStep.acquire (List.replicate 50 ItemPhase.idle) 0 rfl
        (by decide)))).1

end SeoScraper
